import Mathlib

/-!
Shallow embedding of `src/MetalCity/ShaderTypes.h`, the header shared between
the Metal shading stage and the Swift/ObjC host code of MetalCity.

The header declares a backing-type alias `EnumBackingType` (selected by a
preprocessor conditional on `__METAL_VERSION__`), two `NS_ENUM` constant sets
(`BufferIndex`, `VertexAttribute`) and one plain-data struct (`Uniforms`).
We model the declarations themselves, the integer values of the constants,
and the C/simd memory layout of the struct.
-/

namespace ShaderTypes

/-- The two compilation modes of the header: as Metal shading language
(when `__METAL_VERSION__` is defined) or as host Swift/ObjC code. -/
inductive CompileMode
  | metal
  | host
deriving DecidableEq

/-- The integer types that can back an `NS_ENUM` of this header:
`metal::int32_t` in Metal mode and `NSInteger` in host mode. -/
inductive BackingType
  | int32_t
  | nsinteger
deriving DecidableEq

/-- Bit width of each backing type.  `NSInteger` is 64-bit on the modern
64-bit host platforms this project targets. -/
def BackingType.bits : BackingType → Nat
  | .int32_t => 32
  | .nsinteger => 64

/-- `typedef metal::int32_t EnumBackingType;` under `__METAL_VERSION__`,
`typedef NSInteger EnumBackingType;` otherwise. -/
def EnumBackingType : CompileMode → BackingType
  | .metal => .int32_t
  | .host => .nsinteger

/-- A signed two's-complement integer of `b.bits` bits can hold `v`
without change. -/
def BackingType.representable (b : BackingType) (v : Int) : Bool :=
  decide (-(2 ^ (b.bits - 1)) ≤ v) && decide (v < 2 ^ (b.bits - 1))

/-- The value obtained by storing `v` into a signed two's-complement
integer of `b.bits` bits (wraparound semantics). -/
def BackingType.store (b : BackingType) (v : Int) : Int :=
  (v + 2 ^ (b.bits - 1)) % 2 ^ b.bits - 2 ^ (b.bits - 1)

/-- The members of `typedef NS_ENUM(EnumBackingType, BufferIndex)`,
in source order, with their declared integer values. -/
def BufferIndex.members : List (String × Int) :=
  [("BufferIndexVertices", 0),
   ("BufferIndexUniforms", 1)]

/-- The members of `typedef NS_ENUM(EnumBackingType, VertexAttribute)`,
in source order, with their declared integer values. -/
def VertexAttribute.members : List (String × Int) :=
  [("VertexAttributePosition", 0),
   ("VertexAttributeNormal", 1),
   ("VertexAttributeColor", 2)]

/-- The scalar base types appearing in the `Uniforms` struct. -/
inductive ScalarType
  | float32
deriving DecidableEq

/-- Bit width of a scalar base type. -/
def ScalarType.bits : ScalarType → Nat
  | .float32 => 32

/-- The simd field types used by the `Uniforms` struct. -/
inductive FieldType
  | matrix_float4x4
  | vector_float3
  | float
deriving DecidableEq

/-- Underlying scalar of each field type: every field of `Uniforms` is
built from 32-bit `float`. -/
def FieldType.scalar : FieldType → ScalarType
  | .matrix_float4x4 => .float32
  | .vector_float3 => .float32
  | .float => .float32

/-- Number of scalar components of each field type. -/
def FieldType.components : FieldType → Nat
  | .matrix_float4x4 => 16
  | .vector_float3 => 3
  | .float => 1

/-- `sizeof` per the simd ABI: `matrix_float4x4` is four 16-byte
`vector_float4` columns, and `vector_float3` occupies a full 16-byte
slot (its fourth lane is padding). -/
def FieldType.byteSize : FieldType → Nat
  | .matrix_float4x4 => 64
  | .vector_float3 => 16
  | .float => 4

/-- `alignof` per the simd ABI. -/
def FieldType.byteAlign : FieldType → Nat
  | .matrix_float4x4 => 16
  | .vector_float3 => 16
  | .float => 4

/-- One named field of a C struct. -/
structure FieldDecl where
  name : String
  type : FieldType
deriving DecidableEq

/-- The fields of `typedef struct { ... } Uniforms;`, in source order. -/
def Uniforms.fields : List FieldDecl :=
  [⟨"projectionMatrix", .matrix_float4x4⟩,
   ⟨"viewMatrix", .matrix_float4x4⟩,
   ⟨"lightDirection", .vector_float3⟩,
   ⟨"ambientIntensity", .float⟩]

/-- The field types of `Uniforms`, in source order. -/
def Uniforms.fieldTypes : List FieldType := Uniforms.fields.map FieldDecl.type

/-- Round `off` up to the next multiple of `a`. -/
def alignUp (off a : Nat) : Nat := (off + a - 1) / a * a

/-- C sequential struct layout: each field is placed at the next offset
aligned to its `alignof`, starting from `off`. -/
def layoutFrom : Nat → List FieldType → List Nat
  | _, [] => []
  | off, t :: rest =>
    let o := alignUp off t.byteAlign
    o :: layoutFrom (o + t.byteSize) rest

/-- Byte offset of each field of a struct with the given field types. -/
def fieldOffsets (ts : List FieldType) : List Nat := layoutFrom 0 ts

/-- One past the last byte of the last field of the struct. -/
def layoutEnd : Nat → List FieldType → Nat
  | off, [] => off
  | off, t :: rest => layoutEnd (alignUp off t.byteAlign + t.byteSize) rest

/-- Alignment of the whole struct: the largest field alignment. -/
def maxAlign (ts : List FieldType) : Nat :=
  ts.foldr (fun t a => max t.byteAlign a) 1

/-- `sizeof` the struct: its end offset rounded up to its alignment. -/
def structSize (ts : List FieldType) : Nat :=
  alignUp (layoutEnd 0 ts) (maxAlign ts)

/-- Size of a field under a hypothetical tight packing that stores only
the scalar components, with no alignment padding. -/
def FieldType.packedSize (t : FieldType) : Nat := 4 * t.components

/-- Byte offsets under the hypothetical tight packing, starting at `off`. -/
def packedFrom : Nat → List FieldType → List Nat
  | _, [] => []
  | off, t :: rest => off :: packedFrom (off + t.packedSize) rest

/-- Byte offset of each field under the hypothetical tight packing. -/
def packedOffsets (ts : List FieldType) : List Nat := packedFrom 0 ts

/-- Total size of the struct under the hypothetical tight packing. -/
def packedSize (ts : List FieldType) : Nat :=
  ts.foldr (fun t a => t.packedSize + a) 0

/-- A top-level declaration made by the header. -/
inductive CDecl
  | typeAlias (name : String) (target : BackingType)
  | constantSet (name : String) (members : List (String × Int))
  | record (name : String) (fields : List FieldDecl)
  | function (name : String)
  | globalVar (name : String)
deriving DecidableEq

/-- `true` exactly when the declaration exposes an operation or mutable
state (a function or a global variable). -/
def CDecl.isOperation : CDecl → Bool
  | .function _ => true
  | .globalVar _ => true
  | _ => false

/-- The constant sets declared in a declaration list, with their members. -/
def constantSets (ds : List CDecl) : List (String × List (String × Int)) :=
  ds.filterMap fun d =>
    match d with
    | .constantSet n ms => some (n, ms)
    | _ => none

/-- The plain-data records declared in a declaration list, with their
fields. -/
def records (ds : List CDecl) : List (String × List FieldDecl) :=
  ds.filterMap fun d =>
    match d with
    | .record n fs => some (n, fs)
    | _ => none

/-- Everything `ShaderTypes.h` declares in a given compilation mode: the
backing-type alias, the two constant sets and the `Uniforms` struct.  The
preprocessor conditional only selects the alias target; the member lists
and the struct fields come from the single shared textual definition. -/
def headerDecls (m : CompileMode) : List CDecl :=
  [.typeAlias "EnumBackingType" (EnumBackingType m),
   .constantSet "BufferIndex" BufferIndex.members,
   .constantSet "VertexAttribute" VertexAttribute.members,
   .record "Uniforms" Uniforms.fields]

/-- The integer values of every constant declared by the header. -/
def allMemberValues : List Int :=
  (BufferIndex.members ++ VertexAttribute.members).map Prod.snd

/-- C1: the `Uniforms` record holds, in this exact order, a 4×4 projection
matrix, a 4×4 view matrix, a 3-component light-direction vector and one
scalar ambient intensity, and every field is built from 32-bit floats. -/
theorem uniforms_field_order_and_scalar_types :
    Uniforms.fields =
      [⟨"projectionMatrix", .matrix_float4x4⟩,
       ⟨"viewMatrix", .matrix_float4x4⟩,
       ⟨"lightDirection", .vector_float3⟩,
       ⟨"ambientIntensity", .float⟩] ∧
    FieldType.components .matrix_float4x4 = 4 * 4 ∧
    FieldType.components .vector_float3 = 3 ∧
    FieldType.components .float = 1 ∧
    (Uniforms.fields.all fun f => f.type.scalar.bits == 32) = true :=
  ⟨rfl, rfl, rfl, rfl, rfl⟩

/-- C2: `BufferIndex` contains the member `Vertices` with value 0 and the
member `Uniforms` with value 1, and the two values are distinct. -/
theorem bufferIndex_vertices_and_uniforms :
    ("BufferIndexVertices", (0 : Int)) ∈ BufferIndex.members ∧
    ("BufferIndexUniforms", (1 : Int)) ∈ BufferIndex.members ∧
    (0 : Int) ≠ 1 :=
  ⟨List.Mem.head _, List.Mem.tail _ (List.Mem.head _), by decide⟩

/-- C3: `VertexAttribute` contains exactly three identifiers — `Position`
with value 0, `Normal` with value 1, `Color` with value 2 — and the three
values are pairwise distinct. -/
theorem vertexAttribute_members_exact :
    VertexAttribute.members =
      [("VertexAttributePosition", 0),
       ("VertexAttributeNormal", 1),
       ("VertexAttributeColor", 2)] ∧
    VertexAttribute.members.length = 3 ∧
    (VertexAttribute.members.map Prod.snd).Nodup :=
  ⟨rfl, rfl, by decide⟩

/-- C4: under the alignment-respecting sequential C layout of its field
types, `Uniforms` places `projectionMatrix` at offset 0, `viewMatrix` at
offset 64, `lightDirection` at offset 128, and `ambientIntensity`
immediately after the light-direction vector, at offset 128 plus the
vector's size; the struct size is the layout's end rounded up only as its
alignment requires. -/
theorem uniforms_sequential_layout :
    fieldOffsets Uniforms.fieldTypes = [0, 64, 128, 144] ∧
    144 = 128 + FieldType.byteSize .vector_float3 ∧
    structSize Uniforms.fieldTypes = 160 ∧
    structSize Uniforms.fieldTypes =
      alignUp (layoutEnd 0 Uniforms.fieldTypes) (maxAlign Uniforms.fieldTypes) :=
  ⟨rfl, rfl, rfl, rfl⟩

/-- C5 counterexample: `BufferIndex` declares two member identifiers, not
three, so the claim that it has three members is false. -/
theorem bufferIndex_not_three_members :
    BufferIndex.members.length = 2 ∧ BufferIndex.members.length ≠ 3 := by
  decide

/-- C5 amended: the two identifiers in `BufferIndex` have values 0 and 1
respectively; the values are drawn from {0, 1} and are pairwise distinct. -/
theorem bufferIndex_two_distinct_values :
    BufferIndex.members.map Prod.snd = [0, 1] ∧
    (BufferIndex.members.map Prod.snd).Nodup ∧
    (BufferIndex.members.all fun m => m.2 == 0 || m.2 == 1) = true := by
  refine ⟨rfl, by decide, rfl⟩

/-- C6: in either compilation mode, the header's declarations are only the
backing-type alias, constant sets and a record — no functions, no global
variables, hence no operations — and its constant sets are exactly
`BufferIndex` and `VertexAttribute` while its only record is `Uniforms`. -/
theorem header_declares_no_operations :
    ∀ m : CompileMode,
      ((headerDecls m).all fun d => ! d.isOperation) = true ∧
      constantSets (headerDecls m) =
        [("BufferIndex", BufferIndex.members),
         ("VertexAttribute", VertexAttribute.members)] ∧
      records (headerDecls m) = [("Uniforms", Uniforms.fields)] := by
  intro m
  cases m <;> exact ⟨rfl, rfl, rfl⟩

/-- C7: the simd layout of `Uniforms` is not tight: `lightDirection`
occupies a full 16-byte slot, so `ambientIntensity` sits at offset 144
rather than the 140 of a tight packing and the struct occupies 160 bytes
rather than a tight packing's 144; the scalar does not reuse the vector's
padding. -/
theorem uniforms_not_tightly_packed :
    fieldOffsets Uniforms.fieldTypes = [0, 64, 128, 144] ∧
    packedOffsets Uniforms.fieldTypes = [0, 64, 128, 140] ∧
    structSize Uniforms.fieldTypes = 160 ∧
    packedSize Uniforms.fieldTypes = 144 ∧
    FieldType.byteSize .vector_float3 = 16 ∧
    (144 : Nat) ≠ 140 ∧ (160 : Nat) ≠ 144 := by
  refine ⟨rfl, rfl, rfl, rfl, rfl, by decide, by decide⟩

/-- C8: the backing type of the constant sets is `metal::int32_t` in Metal
mode and 64-bit `NSInteger` in host mode — two different types — yet every
declared constant value is representable in both, and storing it in either
backing type leaves it unchanged, so each identifier denotes the same
integer on both sides of the CPU–GPU boundary. -/
theorem backing_types_agree_on_all_values :
    EnumBackingType .metal = .int32_t ∧
    EnumBackingType .host = .nsinteger ∧
    BackingType.bits .int32_t = 32 ∧
    BackingType.bits .nsinteger = 64 ∧
    EnumBackingType .metal ≠ EnumBackingType .host ∧
    (allMemberValues.all fun v =>
      BackingType.representable .int32_t v &&
      BackingType.representable .nsinteger v &&
      (BackingType.store .int32_t v == BackingType.store .nsinteger v) &&
      (BackingType.store .int32_t v == v)) = true := by
  refine ⟨rfl, rfl, rfl, rfl, by decide, by decide⟩

/-- C9: compiling the header in Metal mode and in host mode yields the
same constant sets (same member names and values) and the same `Uniforms`
field sequence and field types, even though the two modes' declaration
lists differ in the backing-type alias: the agreement comes from the
single shared textual definition. -/
theorem metal_and_host_modes_agree :
    constantSets (headerDecls .metal) = constantSets (headerDecls .host) ∧
    records (headerDecls .metal) = records (headerDecls .host) ∧
    headerDecls .metal ≠ headerDecls .host := by
  refine ⟨rfl, rfl, by decide⟩

end ShaderTypes
